import Mathlib

/-!
Verification of the Eos neural-bridge pipeline

A shallow embedding of the pipeline core of the Eos repository:

* `src/scripts/neural_bridge.py` — the `NeuralBridge` ROS2 node: sensor
  preprocessing (`preprocess_sensor_data`), decision interpretation
  (`interpret_movement`, `calculate_safety_score`, `interpret_behavior`,
  `postprocess_neural_output`), command generation
  (`publish_navigation_suggestion`), the cycle scheduler
  (`processing_callback`), model initialisation (`initialize_neural_model`,
  embedded as `init_neural_model`) and status reporting (`status_callback`).
* `src/python/snn_model.py` — `SNNModel.process`.
* `src/python/ros_bridge.py` — `ROSBridge.scan_callback`.

Python floats are modelled as rationals (`ℚ`); numeric literals such as
`0.3` denote the exact rational the source writes.  The activation
`np.tanh` of the SNN model is kept abstract as a function parameter
`act : ℚ → ℚ`, since the shape/determinism properties proved about it hold
for every activation.  Division in `ℚ` is total with `q / 0 = 0`.
-/

namespace Eos

/-- A `sensor_msgs/LaserScan` message, restricted to the fields the
pipeline reads: `ranges`, `range_min`, `range_max`. -/
structure LaserScan where
  ranges : List ℚ
  range_min : ℚ
  range_max : ℚ
deriving DecidableEq

/-- The samples of a scan that survive the validity filter of
`preprocess_sensor_data` (line 317):
`ranges[(ranges >= laser.range_min) & (ranges <= laser.range_max)]`. -/
def valid_ranges (l : LaserScan) : List ℚ :=
  l.ranges.filter (fun r => decide (l.range_min ≤ r ∧ r ≤ l.range_max))

/-- Embedding of `NeuralBridge.preprocess_sensor_data` (lines 296–340).  The IMU and
odometry arguments are accepted but unused, exactly as in the source; the
input vector is built from the laser scan alone.  The final
truncate-or-pad step (lines 335–338) is kept even though the laser block
already produces `input_size` entries. -/
def preprocess_sensor_data (input_size : ℕ) (laser : Option LaserScan)
    (_imu : Option Unit) (_odom : Option Unit) : List ℚ :=
  let input_data : List ℚ :=
    match laser with
    | none => List.replicate input_size 0
    | some l =>
      if l.ranges = [] then List.replicate input_size 0
      else
        let valid := valid_ranges l
        if valid = [] then List.replicate input_size 0
        else
          let normalized := (valid.take input_size).map (fun r => r / l.range_max)
          normalized ++ List.replicate (input_size - normalized.length) 0
  if input_size < input_data.length then input_data.take input_size
  else input_data ++ List.replicate (input_size - input_data.length) 0

/-- Movement classes returned by `interpret_movement`
(`'forward', 'left', 'right', 'stop'`, plus the `'unknown'` fallback). -/
inductive Movement where
  | forward
  | left
  | right
  | stop
  | unknown
deriving DecidableEq

/-- Behavioral labels returned by `interpret_behavior`. -/
inductive Behavior where
  | confident_navigation
  | cautious_navigation
  | exploration
  | uncertain
deriving DecidableEq

/-- Embedding of `np.max` on a list: the maximum of a non-empty list (the source never
applies it to an empty vector without raising; on `[]` we return `0`,
a value no claim depends on). -/
def listMax : List ℚ → ℚ
  | [] => 0
  | [x] => x
  | x :: y :: xs => max x (listMax (y :: xs))

/-- Index of the first occurrence of `a` in the list (`0` past the end if
absent).  `np.argmax` returns the index of the first occurrence of the
maximum, i.e. `firstIdxOf (listMax v) v`. -/
def firstIdxOf (a : ℚ) : List ℚ → ℕ
  | [] => 0
  | x :: xs => if x = a then 0 else firstIdxOf a xs + 1

/-- Embedding of `NeuralBridge.interpret_movement` (lines 390–396):
`np.argmax(output[:4])` mapped through `['forward','left','right','stop']`,
`'unknown'` when fewer than 4 outputs. -/
def interpret_movement (output : List ℚ) : Movement :=
  if 4 ≤ output.length then
    match firstIdxOf (listMax (output.take 4)) (output.take 4) with
    | 0 => Movement.forward
    | 1 => Movement.left
    | 2 => Movement.right
    | _ => Movement.stop
  else Movement.unknown

/-- Embedding of `NeuralBridge.calculate_safety_score` (lines 398–403): the last output
when at least 5 outputs exist, else the default `0.5`. -/
def calculate_safety_score (output : List ℚ) : ℚ :=
  if 5 ≤ output.length then (output.getLast?).getD 0.5
  else 0.5

/-- Embedding of `NeuralBridge.interpret_behavior` (lines 405–416). -/
def interpret_behavior (output : List ℚ) : Behavior :=
  let confidence := listMax output
  if confidence > 0.8 then Behavior.confident_navigation
  else if confidence > 0.5 then Behavior.cautious_navigation
  else if confidence > 0.3 then Behavior.exploration
  else Behavior.uncertain

/-- The processed-output dictionary built by
`NeuralBridge.postprocess_neural_output` (lines 370–388). -/
structure Decision where
  raw_output : List ℚ
  movement_decision : Movement
  confidence : ℚ
  safety_score : ℚ
  behavioral_context : Behavior
deriving DecidableEq

/-- Embedding of `NeuralBridge.postprocess_neural_output` (lines 370–388). -/
def postprocess_neural_output (raw_output : List ℚ) : Decision :=
  { raw_output := raw_output
    movement_decision := interpret_movement raw_output
    confidence := listMax raw_output
    safety_score := calculate_safety_score raw_output
    behavioral_context := interpret_behavior raw_output }

/-- A `geometry_msgs/Twist` restricted to the two fields written by the
pipeline; a fresh message is zero-initialised. -/
structure Twist where
  linear_x : ℚ
  angular_z : ℚ
deriving DecidableEq

/-- The zero-initialised `Twist()`. -/
def Twist.zero : Twist := ⟨0, 0⟩

/-- The velocity command built by
`NeuralBridge.publish_navigation_suggestion` (lines 430–448): the
`if/elif` cascade converting a decision into a `Twist`, starting from the
zero-initialised message. -/
def navigation_suggestion (confidence_threshold : ℚ)
    (movement : Movement) (confidence : ℚ) : Twist :=
  if movement = Movement.forward ∧ confidence > confidence_threshold then
    { linear_x := 0.3 * confidence, angular_z := 0 }
  else if movement = Movement.left ∧ confidence > confidence_threshold then
    { linear_x := 0, angular_z := 0.5 * confidence }
  else if movement = Movement.right ∧ confidence > confidence_threshold then
    { linear_x := 0, angular_z := -0.5 * confidence }
  else if movement = Movement.stop ∨ confidence < 0.3 then
    { linear_x := 0, angular_z := 0 }
  else Twist.zero

/-- The `NeuralBridge` node state an individual tick reads and writes:
the `model_loaded` flag, the `processing` reentrancy flag, and the cached
laser snapshot (IMU and odometry are cached too but never used by the
pipeline, so they are elided from the state). -/
structure BridgeState where
  model_loaded : Bool
  processing : Bool
  laser : Option LaserScan
deriving DecidableEq

/-- Observable effects of one tick of `processing_callback`: the debug
log on the missing-sensor skip path (line 269), the error log of the
exception handler (line 291), and the two publishes (lines 283–284). -/
inductive Event where
  | log_waiting
  | log_error
  | published_neural_output (raw : List ℚ)
  | published_nav_suggestion (cmd : Twist)
deriving DecidableEq

/-- The guard of `processing_callback` (line 255):
`if not self.model_loaded or self.processing: return`. -/
def tick_dropped (s : BridgeState) : Bool :=
  !s.model_loaded || s.processing

/-- Embedding of `NeuralBridge.processing_callback` (lines 253–294) as a state
transformer returning the successor state and the tick's observable
events.  The inference step is a parameter `infer`; `none` models an
exception raised anywhere in the pipeline body after the sensor check —
including `np.max` on an empty output — which the source catches at the
cycle boundary (line 290).  The `finally` block (line 294) is reflected
by `processing := false` on every non-dropped path. -/
def processing_callback (infer : List ℚ → Option (List ℚ))
    (input_size : ℕ) (confidence_threshold : ℚ)
    (s : BridgeState) : BridgeState × List Event :=
  if tick_dropped s then (s, [])
  else
    match s.laser with
    | none => ({ s with processing := false }, [Event.log_waiting])
    | some _ =>
      let neural_input := preprocess_sensor_data input_size s.laser none none
      match infer neural_input with
      | none => ({ s with processing := false }, [Event.log_error])
      | some raw =>
        if raw = [] then ({ s with processing := false }, [Event.log_error])
        else
          let processed := postprocess_neural_output raw
          let cmd := navigation_suggestion confidence_threshold
            processed.movement_decision processed.confidence
          ({ s with processing := false },
            [Event.published_neural_output raw,
             Event.published_nav_suggestion cmd])

/-- Embedding of `NeuralBridge.initialize_neural_model` (lines 82–104), embedded as
`init_neural_model`: the resulting value of `self.model_loaded`.  The
`try` body sets it to `True`; the `except` handler also sets it to `True`
(simulated fallback), so the flag is `True` whether or not loading
raises. -/
def init_neural_model (load_raises : Bool) : Bool :=
  if load_raises then true else true

/-- Embedding of `NeuralBridge.status_callback` (lines 450–462). -/
def status_callback (s : BridgeState) : String :=
  if s.model_loaded then
    if s.processing then "Neural Bridge: PROCESSING - Active inference"
    else "Neural Bridge: READY - Model loaded and waiting"
  else "Neural Bridge: ERROR - Model not loaded"

/-- The input-size adjustment of `SNNModel.process`
(`snn_model.py` lines 22–31): zero-pad to `neuron_count` when short,
truncate when long. -/
def adjust_input (neuron_count : ℕ) (input_data : List ℚ) : List ℚ :=
  if input_data.length < neuron_count then
    input_data ++ List.replicate (neuron_count - input_data.length) 0
  else input_data.take neuron_count

/-- Dot product of two rational vectors (`np.dot` row step). -/
def dot (row input_data : List ℚ) : ℚ :=
  (List.zipWith (· * ·) row input_data).sum

/-- Embedding of `SNNModel.process` (`snn_model.py` lines 16–36):
`act(W · x')` componentwise, where `x'` is the input adjusted to
`neuron_count` and `W` is the weight matrix fixed at load time (one list
per row).  The activation `act` abstracts `np.tanh`. -/
def snn_process (act : ℚ → ℚ) (weights : List (List ℚ))
    (neuron_count : ℕ) (sensor_data : List ℚ) : List ℚ :=
  weights.map (fun row => act (dot row (adjust_input neuron_count sensor_data)))

/-- The preprocessing of `ROSBridge.scan_callback`
(`ros_bridge.py` line 29): `[r if r < max_range else max_range for r in ranges]`. -/
def clamp_ranges (msg : LaserScan) : List ℚ :=
  msg.ranges.map (fun r => if r < msg.range_max then r else msg.range_max)

/-- Embedding of `ROSBridge.scan_callback` (`ros_bridge.py` lines 23–40): clamp the
ranges, run the SNN, and publish one `Twist` from the first two outputs.
`none` models the uncaught `IndexError` when `output[0]` or `output[1]`
is out of bounds — then nothing is published. -/
def scan_callback (act : ℚ → ℚ) (weights : List (List ℚ))
    (neuron_count : ℕ) (msg : LaserScan) : Option Twist :=
  let processed_ranges := clamp_ranges msg
  let output := snn_process act weights neuron_count processed_ranges
  match output[0]?, output[1]? with
  | some o0, some o1 => some { linear_x := o0 * 0.5, angular_z := o1 * 0.5 }
  | _, _ => none

/-! Support lemmas -/

theorem listMax_mem : ∀ {v : List ℚ}, v ≠ [] → listMax v ∈ v
  | [x], _ => by simp [listMax]
  | x :: y :: xs, _ => by
    have ih := listMax_mem (v := y :: xs) (by simp)
    rw [listMax]
    rcases max_choice x (listMax (y :: xs)) with h | h <;> rw [h]
    · exact List.mem_cons_self x _
    · exact List.mem_cons_of_mem x ih

theorem le_listMax : ∀ {v : List ℚ} {x : ℚ}, x ∈ v → x ≤ listMax v
  | [_], x, h => by
    rw [List.mem_singleton] at h
    subst h
    simp [listMax]
  | y :: z :: xs, x, h => by
    rw [listMax]
    rcases List.mem_cons.mp h with rfl | h₂
    · exact le_max_left _ _
    · exact le_trans (le_listMax h₂) (le_max_right _ _)

theorem firstIdxOf_lt_length {a : ℚ} :
    ∀ {v : List ℚ}, a ∈ v → firstIdxOf a v < v.length
  | x :: xs, h => by
    rw [firstIdxOf]
    split
    · simp
    · next hne =>
      have hmem : a ∈ xs := by
        rcases List.mem_cons.mp h with rfl | h₂
        · exact absurd rfl hne
        · exact h₂
      simpa using Nat.succ_lt_succ (firstIdxOf_lt_length hmem)

theorem getElem?_firstIdxOf {a : ℚ} :
    ∀ {v : List ℚ}, a ∈ v → v[firstIdxOf a v]? = some a
  | x :: xs, h => by
    rw [firstIdxOf]
    split
    · next he => simp [he]
    · next hne =>
      have hmem : a ∈ xs := by
        rcases List.mem_cons.mp h with rfl | h₂
        · exact absurd rfl hne
        · exact h₂
      simpa using getElem?_firstIdxOf hmem

theorem getElem?_lt_firstIdxOf {a : ℚ} :
    ∀ {v : List ℚ} {j : ℕ}, j < firstIdxOf a v → v[j]? ≠ some a
  | [], j, h => by
    rw [firstIdxOf] at h
    omega
  | x :: xs, j, h => by
    rw [firstIdxOf] at h
    split at h
    · omega
    · next hne =>
      cases j with
      | zero =>
        simp only [List.getElem?_cons_zero, ne_eq, Option.some.injEq]
        exact hne
      | succ j =>
        simpa using getElem?_lt_firstIdxOf (Nat.lt_of_succ_lt_succ h)

/-- The laser-absent branch of `preprocess_sensor_data`. -/
theorem preprocess_none (n : ℕ) (imu odom : Option Unit) :
    preprocess_sensor_data n none imu odom = List.replicate n 0 := by
  unfold preprocess_sensor_data
  simp

/-- The empty-ranges / no-survivor branches of `preprocess_sensor_data`. -/
theorem preprocess_degenerate (n : ℕ) (l : LaserScan) (imu odom : Option Unit)
    (h : l.ranges = [] ∨ valid_ranges l = []) :
    preprocess_sensor_data n (some l) imu odom = List.replicate n 0 := by
  unfold preprocess_sensor_data
  rcases h with h | h
  · simp [h]
  · by_cases hr : l.ranges = []
    · simp [hr]
    · simp [hr, h]

/-- The surviving-samples branch of `preprocess_sensor_data`: take, then
normalize, then right-pad with zeros. -/
theorem preprocess_main (n : ℕ) (l : LaserScan) (imu odom : Option Unit)
    (hv : valid_ranges l ≠ []) :
    preprocess_sensor_data n (some l) imu odom =
      ((valid_ranges l).take n).map (fun r => r / l.range_max)
        ++ List.replicate (n - min n (valid_ranges l).length) 0 := by
  have hranges : l.ranges ≠ [] := by
    intro h0
    apply hv
    unfold valid_ranges
    rw [h0]
    rfl
  have hmin : min n (valid_ranges l).length ≤ n := Nat.min_le_left _ _
  unfold preprocess_sensor_data
  simp only [hranges, hv, if_neg, ite_false, List.length_append, List.length_map,
    List.length_take, List.length_replicate]
  have hlen : min n (valid_ranges l).length + (n - min n (valid_ranges l).length) = n :=
    Nat.add_sub_cancel' hmin
  rw [hlen]
  simp

/-- Lemma: `preprocess_sensor_data` always yields exactly `input_size` values. -/
theorem preprocess_length (n : ℕ) (laser : Option LaserScan) (imu odom : Option Unit) :
    (preprocess_sensor_data n laser imu odom).length = n := by
  match laser with
  | none => rw [preprocess_none]; exact List.length_replicate n 0
  | some l =>
    by_cases hv : valid_ranges l = []
    · rw [preprocess_degenerate n l imu odom (Or.inr hv)]
      exact List.length_replicate n 0
    · rw [preprocess_main n l imu odom hv]
      simp only [List.length_append, List.length_map, List.length_take,
        List.length_replicate]
      exact Nat.add_sub_cancel' (Nat.min_le_left _ _)

/-- With physically meaningful bounds (`0 ≤ range_min`, `0 < range_max`)
every preprocessed value lies in `[0, 1]`. -/
theorem preprocess_mem_unit (n : ℕ) (laser : Option LaserScan) (imu odom : Option Unit)
    (hbound : ∀ l, laser = some l → 0 ≤ l.range_min ∧ 0 < l.range_max) :
    ∀ x ∈ preprocess_sensor_data n laser imu odom, 0 ≤ x ∧ x ≤ 1 := by
  intro x hx
  match laser with
  | none =>
    rw [preprocess_none] at hx
    rw [List.eq_of_mem_replicate hx]
    norm_num
  | some l =>
    obtain ⟨hmin, hmax⟩ := hbound l rfl
    by_cases hv : valid_ranges l = []
    · rw [preprocess_degenerate n l imu odom (Or.inr hv)] at hx
      rw [List.eq_of_mem_replicate hx]
      norm_num
    · rw [preprocess_main n l imu odom hv] at hx
      rcases List.mem_append.mp hx with hx | hx
      · obtain ⟨r, hr, rfl⟩ := List.mem_map.mp hx
        have hrv : r ∈ valid_ranges l := List.take_subset _ _ hr
        have hfilter := (List.mem_filter.mp hrv).2
        have hcond : l.range_min ≤ r ∧ r ≤ l.range_max := of_decide_eq_true hfilter
        constructor
        · exact div_nonneg (le_trans hmin hcond.1) (le_of_lt hmax)
        · exact (div_le_one hmax).mpr hcond.2
      · rw [List.eq_of_mem_replicate hx]
        norm_num

/-- Lemma: `interpret_movement` is the first-wins argmax of the first four
outputs mapped through `[forward, left, right, stop]`. -/
theorem interpret_movement_get (v : List ℚ) (h4 : 4 ≤ v.length) :
    [Movement.forward, Movement.left, Movement.right,
        Movement.stop][firstIdxOf (listMax (v.take 4)) (v.take 4)]? =
      some (interpret_movement v) := by
  have hlen : (v.take 4).length = 4 := by
    rw [List.length_take]
    omega
  have hne : v.take 4 ≠ [] := by
    intro h0
    rw [h0] at hlen
    simp at hlen
  have hlt : firstIdxOf (listMax (v.take 4)) (v.take 4) < 4 := by
    have := firstIdxOf_lt_length (listMax_mem hne)
    omega
  unfold interpret_movement
  rw [if_pos h4]
  obtain h | h | h | h :
      firstIdxOf (listMax (v.take 4)) (v.take 4) = 0 ∨
      firstIdxOf (listMax (v.take 4)) (v.take 4) = 1 ∨
      firstIdxOf (listMax (v.take 4)) (v.take 4) = 2 ∨
      firstIdxOf (listMax (v.take 4)) (v.take 4) = 3 := by omega
  all_goals rw [h]
  all_goals rfl

/-- Case split of `interpret_behavior` into the four confidence bands. -/
theorem interpret_behavior_spec (v : List ℚ) :
    (0.8 < listMax v → interpret_behavior v = Behavior.confident_navigation) ∧
    (0.5 < listMax v → listMax v ≤ 0.8 →
      interpret_behavior v = Behavior.cautious_navigation) ∧
    (0.3 < listMax v → listMax v ≤ 0.5 → interpret_behavior v = Behavior.exploration) ∧
    (listMax v ≤ 0.3 → interpret_behavior v = Behavior.uncertain) := by
  unfold interpret_behavior
  dsimp only
  split_ifs with h1 h2 h3 <;>
    refine ⟨?_, ?_, ?_, ?_⟩ <;> intros <;> first | rfl | linarith

/-! Claim theorems -/

/-- Claim C2: For every sensor snapshot, `preprocess_sensor_data` returns a
vector of exactly `input_size` elements; with a non-empty laser scan the
samples outside `[range_min, range_max]` are filtered out, survivors are
divided by `range_max` (values in `[0,1]` under physical bounds), the
first `input_size` survivors are taken in stream order and right-padded
with `0.0`; when the laser is absent, its ranges are empty, or no sample
survives, the result is exactly `input_size` zeros. -/
theorem preprocess_sensor_data_spec (input_size : ℕ) (laser : Option LaserScan)
    (imu odom : Option Unit) :
    (preprocess_sensor_data input_size laser imu odom).length = input_size ∧
    (laser = none →
      preprocess_sensor_data input_size laser imu odom = List.replicate input_size 0) ∧
    (∀ l, laser = some l → l.ranges = [] ∨ valid_ranges l = [] →
      preprocess_sensor_data input_size laser imu odom = List.replicate input_size 0) ∧
    (∀ l, laser = some l → valid_ranges l ≠ [] →
      preprocess_sensor_data input_size laser imu odom =
        ((valid_ranges l).take input_size).map (fun r => r / l.range_max)
          ++ List.replicate (input_size - min input_size (valid_ranges l).length) 0) ∧
    (∀ l, laser = some l → 0 ≤ l.range_min → 0 < l.range_max →
      ∀ x ∈ preprocess_sensor_data input_size laser imu odom, 0 ≤ x ∧ x ≤ 1) := by
  refine ⟨preprocess_length _ _ _ _, ?_, ?_, ?_, ?_⟩
  · rintro rfl
    exact preprocess_none _ _ _
  · rintro l rfl h
    exact preprocess_degenerate _ _ _ _ h
  · rintro l rfl h
    exact preprocess_main _ _ _ _ h
  · rintro l rfl h1 h2
    refine preprocess_mem_unit _ _ _ _ ?_
    rintro l' hl'
    cases hl'
    exact ⟨h1, h2⟩

/-- Witness for C2 at the spec's end-to-end example:
ranges `[0.2, 0.4, 1.0]`, `range_max = 1.0`, `input_size = 5`. -/
theorem preprocess_sensor_data_spec_witness :
    (preprocess_sensor_data 5 (some ⟨[0.2, 0.4, 1.0], 0, 1.0⟩) none none).length = 5 ∧
    preprocess_sensor_data 5 (some ⟨[0.2, 0.4, 1.0], 0, 1.0⟩) none none =
      ((valid_ranges ⟨[0.2, 0.4, 1.0], 0, 1.0⟩).take 5).map
          (fun r => r / (1.0 : ℚ))
        ++ List.replicate (5 - min 5 (valid_ranges ⟨[0.2, 0.4, 1.0], 0, 1.0⟩).length) 0 ∧
    ∀ x ∈ preprocess_sensor_data 5 (some ⟨[0.2, 0.4, 1.0], 0, 1.0⟩) none none,
      0 ≤ x ∧ x ≤ 1 := by
  have h := preprocess_sensor_data_spec 5 (some ⟨[0.2, 0.4, 1.0], 0, 1.0⟩) none none
  refine ⟨h.1, h.2.2.2.1 _ rfl ?_, h.2.2.2.2 _ rfl (by norm_num) (by norm_num)⟩
  norm_num [valid_ranges, List.filter, List.cons_ne_nil]

/-- Claim C1: A tick with the `processing` flag set is a no-op (state
unchanged, no events); otherwise (with the model loaded, which holds on
every reachable state) the tick ends with `processing = false` on the
skip path, the exception path (`infer` returning `none`, or an empty
output making `np.max` raise) and the success path alike, and on the
success path it publishes the neural output and the generated
navigation suggestion. -/
theorem processing_callback_spec (infer : List ℚ → Option (List ℚ))
    (input_size : ℕ) (confidence_threshold : ℚ) (s : BridgeState) :
    (s.processing = true →
      processing_callback infer input_size confidence_threshold s = (s, [])) ∧
    (s.model_loaded = true → s.processing = false →
      (processing_callback infer input_size confidence_threshold s).1.processing = false ∧
      (s.laser = none →
        (processing_callback infer input_size confidence_threshold s).2 =
          [Event.log_waiting]) ∧
      (∀ l, s.laser = some l →
        infer (preprocess_sensor_data input_size (some l) none none) = none →
        (processing_callback infer input_size confidence_threshold s).2 =
          [Event.log_error]) ∧
      (∀ l raw, s.laser = some l →
        infer (preprocess_sensor_data input_size (some l) none none) = some raw →
        raw ≠ [] →
        (processing_callback infer input_size confidence_threshold s).2 =
          [Event.published_neural_output raw,
           Event.published_nav_suggestion (navigation_suggestion confidence_threshold
             (postprocess_neural_output raw).movement_decision
             (postprocess_neural_output raw).confidence)])) := by
  constructor
  · intro hp
    have hdrop : tick_dropped s = true := by simp [tick_dropped, hp]
    unfold processing_callback
    rw [hdrop]
    rfl
  · intro hm hp
    have hdrop : tick_dropped s = false := by simp [tick_dropped, hm, hp]
    refine ⟨?_, ?_, ?_, ?_⟩
    · unfold processing_callback
      rw [hdrop]
      rcases hL : s.laser with _ | l
      · simp
      · simp only
        rcases hI : infer (preprocess_sensor_data input_size (some l) none none) with _ | raw
        · simp [hI]
        · by_cases hraw : raw = [] <;> simp [hI, hraw]
    · intro hL
      unfold processing_callback
      rw [hdrop, hL]
      rfl
    · intro l hL hI
      unfold processing_callback
      rw [hdrop, hL]
      simp [hI]
    · intro l raw hL hI hraw
      unfold processing_callback
      rw [hdrop, hL]
      simp [hI, hraw]

/-- Witness for C1: a held-in-`Processing` tick is dropped unchanged, and
an idle tick over the scan `[0.2, 0.4]` with a pass-through inference
publishes both messages and returns to idle. -/
theorem processing_callback_spec_witness :
    processing_callback (fun v => some v) 4 0.7 ⟨true, true, none⟩ =
      (⟨true, true, none⟩, []) ∧
    (processing_callback (fun v => some v) 4 0.7
        ⟨true, false, some ⟨[0.2, 0.4], 0, 1⟩⟩).1.processing = false ∧
    (processing_callback (fun v => some v) 4 0.7
        ⟨true, false, some ⟨[0.2, 0.4], 0, 1⟩⟩).2 =
      [Event.published_neural_output
         (preprocess_sensor_data 4 (some ⟨[0.2, 0.4], 0, 1⟩) none none),
       Event.published_nav_suggestion (navigation_suggestion 0.7
         (postprocess_neural_output
           (preprocess_sensor_data 4 (some ⟨[0.2, 0.4], 0, 1⟩) none none)).movement_decision
         (postprocess_neural_output
           (preprocess_sensor_data 4 (some ⟨[0.2, 0.4], 0, 1⟩) none none)).confidence)] := by
  have h1 := (processing_callback_spec (fun v => some v) 4 0.7 ⟨true, true, none⟩).1 rfl
  have h2 := (processing_callback_spec (fun v => some v) 4 0.7
    ⟨true, false, some ⟨[0.2, 0.4], 0, 1⟩⟩).2 rfl rfl
  have hraw : preprocess_sensor_data 4 (some ⟨[0.2, 0.4], 0, 1⟩) none none ≠ [] := by
    intro h0
    have := preprocess_length 4 (some ⟨[0.2, 0.4], 0, 1⟩) none none
    rw [h0] at this
    simp at this
  exact ⟨h1, h2.1, h2.2.2.2 _ _ rfl rfl hraw⟩

/-- Counterexample to claim C3: A cached scan whose `ranges` list is *empty*
does not skip the cycle: `if not laser_data` only checks absence, the
message object itself is truthy, so the pipeline runs on the all-zero
input vector and both publishes occur. -/
theorem empty_scan_cycle_not_skipped :
    (processing_callback (fun v => some v) 4 0.7
        ⟨true, false, some ⟨[], 0, 1⟩⟩).2 =
      [Event.published_neural_output [0, 0, 0, 0],
       Event.published_nav_suggestion ⟨0, 0⟩] := by
  norm_num [processing_callback, tick_dropped, preprocess_sensor_data, valid_ranges,
    List.filter, List.replicate, postprocess_neural_output, interpret_movement,
    calculate_safety_score, interpret_behavior, listMax, firstIdxOf, List.take,
    navigation_suggestion, Twist.zero, List.cons_ne_nil]

/-- Amended claim C3: Whenever the ranging stream is *absent* at cycle
time, the cycle is skipped entirely — no preprocessing, no inference, no
publish, only the debug log — and the `processing` flag is cleared
before the tick returns.  (A present-but-empty scan does *not* skip the
cycle; see the counterexample.) -/
theorem absent_scan_cycle_skipped (infer : List ℚ → Option (List ℚ))
    (input_size : ℕ) (confidence_threshold : ℚ) (s : BridgeState)
    (hm : s.model_loaded = true) (hp : s.processing = false) (hl : s.laser = none) :
    processing_callback infer input_size confidence_threshold s =
      ({ s with processing := false }, [Event.log_waiting]) := by
  have hdrop : tick_dropped s = false := by simp [tick_dropped, hm, hp]
  unfold processing_callback
  rw [hdrop, hl]
  rfl

/-- Witness for the amended C3 at a concrete sensorless state. -/
theorem absent_scan_cycle_skipped_witness :
    processing_callback (fun _ => none) 100 0.7 ⟨true, false, none⟩ =
      (⟨true, false, none⟩, [Event.log_waiting]) :=
  absent_scan_cycle_skipped (fun _ => none) 100 0.7 ⟨true, false, none⟩ rfl rfl rfl

/-- Claim C4: The `if/elif` cascade of `publish_navigation_suggestion`:
forward above threshold drives `linear = 0.3·confidence`, left/right
drive `angular = ±0.5·confidence`, the stop class zeroes both, low
confidence (`< 0.3`) zeroes both once no earlier branch fired, every
remaining case leaves the zero-initialised default, and for confidence
in `[0,1]` the magnitudes are bounded by `0.3` and `0.5`. -/
theorem navigation_suggestion_spec (confidence_threshold c : ℚ) (m : Movement) :
    (m = Movement.forward → c > confidence_threshold →
      navigation_suggestion confidence_threshold m c = ⟨0.3 * c, 0⟩) ∧
    (m = Movement.left → c > confidence_threshold →
      navigation_suggestion confidence_threshold m c = ⟨0, 0.5 * c⟩) ∧
    (m = Movement.right → c > confidence_threshold →
      navigation_suggestion confidence_threshold m c = ⟨0, -0.5 * c⟩) ∧
    (m = Movement.stop → navigation_suggestion confidence_threshold m c = ⟨0, 0⟩) ∧
    (c < 0.3 → ¬(m = Movement.forward ∧ c > confidence_threshold) →
      ¬(m = Movement.left ∧ c > confidence_threshold) →
      ¬(m = Movement.right ∧ c > confidence_threshold) →
      navigation_suggestion confidence_threshold m c = ⟨0, 0⟩) ∧
    (¬(m = Movement.forward ∧ c > confidence_threshold) →
      ¬(m = Movement.left ∧ c > confidence_threshold) →
      ¬(m = Movement.right ∧ c > confidence_threshold) →
      ¬(m = Movement.stop ∨ c < 0.3) →
      navigation_suggestion confidence_threshold m c = Twist.zero) ∧
    (0 ≤ c → c ≤ 1 →
      |(navigation_suggestion confidence_threshold m c).linear_x| ≤ 0.3 ∧
      |(navigation_suggestion confidence_threshold m c).angular_z| ≤ 0.5) := by
  refine ⟨?_, ?_, ?_, ?_, ?_, ?_, ?_⟩
  · rintro rfl hc
    simp [navigation_suggestion, hc]
  · rintro rfl hc
    simp [navigation_suggestion, hc]
  · rintro rfl hc
    simp [navigation_suggestion, hc]
  · rintro rfl
    simp [navigation_suggestion]
  · intro hc h1 h2 h3
    unfold navigation_suggestion
    rw [if_neg h1, if_neg h2, if_neg h3, if_pos (Or.inr hc)]
  · intro h1 h2 h3 h4
    unfold navigation_suggestion
    rw [if_neg h1, if_neg h2, if_neg h3, if_neg h4]
  · intro h0 h1
    unfold navigation_suggestion
    have hl : |(0.3 : ℚ) * c| ≤ 0.3 := by
      rw [abs_of_nonneg (by positivity)]
      linarith
    have ha : |(0.5 : ℚ) * c| ≤ 0.5 := by
      rw [abs_of_nonneg (by positivity)]
      linarith
    have han : |(-0.5 : ℚ) * c| ≤ 0.5 := by
      rw [neg_mul, abs_neg]
      exact ha
    split
    · exact ⟨hl, by norm_num⟩
    · split
      · exact ⟨by norm_num, ha⟩
      · split
        · exact ⟨by norm_num, han⟩
        · split
          · exact ⟨by norm_num, by norm_num⟩
          · exact ⟨by norm_num [Twist.zero], by norm_num [Twist.zero]⟩

/-- Witness for C4 at the spec's end-to-end example: forward at
confidence `0.9` with threshold `0.7` yields `linear = 0.27`. -/
theorem navigation_suggestion_spec_witness :
    navigation_suggestion 0.7 Movement.forward 0.9 = ⟨0.3 * 0.9, 0⟩ ∧
    |(navigation_suggestion 0.7 Movement.forward 0.9).linear_x| ≤ 0.3 := by
  have h := navigation_suggestion_spec 0.7 0.9 Movement.forward
  exact ⟨h.1 rfl (by norm_num), (h.2.2.2.2.2.2 (by norm_num) (by norm_num)).1⟩

/-- Counterexample to claim C5: With `max(v) = 0.2 ≤ 0.3` but a configured
threshold of `0.1`, the forward branch fires *before* the low-confidence
stop check ever runs, so the command is `linear = 0.06`, not zero — the
claim fails both for `max(v) ≤ 0.3` and for the stronger "`< 0.3`
forces a stop regardless of class" reading. -/
theorem low_confidence_nonzero_command :
    listMax [0.2, 0, 0, 0] < 0.3 ∧
    navigation_suggestion 0.1
      (postprocess_neural_output [0.2, 0, 0, 0]).movement_decision
      (postprocess_neural_output [0.2, 0, 0, 0]).confidence = ⟨0.06, 0⟩ := by
  constructor
  · norm_num [listMax]
  · norm_num [postprocess_neural_output, interpret_movement, listMax, firstIdxOf,
      List.take, navigation_suggestion]

/-- Amended claim C5: For every output vector `v` with `max(v) ≤ 0.3` and
every configured threshold `≥ 0.3`, the command generator produces the
zero command regardless of the movement class; the `< 0.3` check forces
a stop only when no earlier movement branch fired (which the threshold
bound guarantees). -/
theorem low_confidence_zero_command (v : List ℚ) (confidence_threshold : ℚ)
    (hmax : listMax v ≤ 0.3) (ht : 0.3 ≤ confidence_threshold) :
    navigation_suggestion confidence_threshold
      (postprocess_neural_output v).movement_decision
      (postprocess_neural_output v).confidence = ⟨0, 0⟩ := by
  have hc : (postprocess_neural_output v).confidence ≤ 0.3 := hmax
  have hnotgt : ¬ (postprocess_neural_output v).confidence > confidence_threshold := by
    intro h
    linarith
  unfold navigation_suggestion
  rw [if_neg (fun h => hnotgt h.2), if_neg (fun h => hnotgt h.2),
    if_neg (fun h => hnotgt h.2)]
  split
  · rfl
  · rfl

/-- Witness for the amended C5: `v = [0.2, 0, 0, 0]` at the default
threshold `0.7` yields the zero command. -/
theorem low_confidence_zero_command_witness :
    navigation_suggestion 0.7
      (postprocess_neural_output [0.2, 0, 0, 0]).movement_decision
      (postprocess_neural_output [0.2, 0, 0, 0]).confidence = ⟨0, 0⟩ :=
  low_confidence_zero_command [0.2, 0, 0, 0] 0.7 (by norm_num [listMax]) (by norm_num)

/-- Claim C6: For every non-empty output vector: the confidence is the
maximum of the vector; with at least four outputs the movement class is
the class at the lowest index attaining the maximum of the first four
(first-wins argmax) in the fixed order forward/left/right/stop, else
`unknown`; with at least five outputs the safety score is the last
output, else `0.5`; and the behavioral label falls into the four
confidence bands with strict lower boundaries. -/
theorem interpret_decision_spec (v : List ℚ) (hv : v ≠ []) :
    ((postprocess_neural_output v).confidence ∈ v ∧
      ∀ x ∈ v, x ≤ (postprocess_neural_output v).confidence) ∧
    (4 ≤ v.length →
      ∃ i, i < 4 ∧
        (v.take 4)[i]? = some (listMax (v.take 4)) ∧
        (∀ j, j < i → (v.take 4)[j]? ≠ some (listMax (v.take 4))) ∧
        [Movement.forward, Movement.left, Movement.right, Movement.stop][i]? =
          some (postprocess_neural_output v).movement_decision) ∧
    (v.length < 4 →
      (postprocess_neural_output v).movement_decision = Movement.unknown) ∧
    (5 ≤ v.length → ∃ h : v ≠ [],
      (postprocess_neural_output v).safety_score = v.getLast h) ∧
    (v.length < 5 → (postprocess_neural_output v).safety_score = 0.5) ∧
    ((postprocess_neural_output v).confidence > 0.8 →
      (postprocess_neural_output v).behavioral_context =
        Behavior.confident_navigation) ∧
    (0.5 < (postprocess_neural_output v).confidence →
      (postprocess_neural_output v).confidence ≤ 0.8 →
      (postprocess_neural_output v).behavioral_context =
        Behavior.cautious_navigation) ∧
    (0.3 < (postprocess_neural_output v).confidence →
      (postprocess_neural_output v).confidence ≤ 0.5 →
      (postprocess_neural_output v).behavioral_context = Behavior.exploration) ∧
    ((postprocess_neural_output v).confidence ≤ 0.3 →
      (postprocess_neural_output v).behavioral_context = Behavior.uncertain) := by
  have hb := interpret_behavior_spec v
  refine ⟨⟨listMax_mem hv, fun x hx => le_listMax hx⟩, ?_, ?_, ?_, ?_,
    hb.1, hb.2.1, hb.2.2.1, hb.2.2.2⟩
  · intro h4
    have hlen : (v.take 4).length = 4 := by
      rw [List.length_take]
      omega
    have hne : v.take 4 ≠ [] := by
      intro h0
      rw [h0] at hlen
      simp at hlen
    exact ⟨firstIdxOf (listMax (v.take 4)) (v.take 4),
      by
        have := firstIdxOf_lt_length (listMax_mem hne)
        omega,
      getElem?_firstIdxOf (listMax_mem hne),
      fun j hj => getElem?_lt_firstIdxOf hj,
      interpret_movement_get v h4⟩
  · intro h4
    show interpret_movement v = Movement.unknown
    unfold interpret_movement
    rw [if_neg (by omega)]
  · intro h5
    refine ⟨hv, ?_⟩
    show calculate_safety_score v = v.getLast hv
    unfold calculate_safety_score
    rw [if_pos h5, List.getLast?_eq_getLast_of_ne_nil hv]
    rfl
  · intro h5
    show calculate_safety_score v = 0.5
    unfold calculate_safety_score
    rw [if_neg (by omega)]

/-- Witness for C6 at the spec's end-to-end example
`[0.9, 0.1, 0.1, 0.1, 0.2]`: argmax characterisation, last-output
safety score, and the confident band. -/
theorem interpret_decision_spec_witness :
    (∃ i, i < 4 ∧
      (([0.9, 0.1, 0.1, 0.1, 0.2] : List ℚ).take 4)[i]? =
        some (listMax (([0.9, 0.1, 0.1, 0.1, 0.2] : List ℚ).take 4)) ∧
      (∀ j, j < i →
        (([0.9, 0.1, 0.1, 0.1, 0.2] : List ℚ).take 4)[j]? ≠
          some (listMax (([0.9, 0.1, 0.1, 0.1, 0.2] : List ℚ).take 4))) ∧
      [Movement.forward, Movement.left, Movement.right, Movement.stop][i]? =
        some (postprocess_neural_output [0.9, 0.1, 0.1, 0.1, 0.2]).movement_decision) ∧
    (∃ h : ([0.9, 0.1, 0.1, 0.1, 0.2] : List ℚ) ≠ [],
      (postprocess_neural_output [0.9, 0.1, 0.1, 0.1, 0.2]).safety_score =
        ([0.9, 0.1, 0.1, 0.1, 0.2] : List ℚ).getLast h) ∧
    (postprocess_neural_output [0.9, 0.1, 0.1, 0.1, 0.2]).behavioral_context =
      Behavior.confident_navigation := by
  have h := interpret_decision_spec [0.9, 0.1, 0.1, 0.1, 0.2] (by simp)
  exact ⟨h.2.1 (by norm_num), h.2.2.2.1 (by norm_num),
    h.2.2.2.2.2.1 (by norm_num [postprocess_neural_output, listMax])⟩

/-- Counterexample to claim C7: An output vector the deterministic tanh
variant can produce — every component in `(-1, 1)` — whose interpreted
confidence and safety score are both negative, violating the data-model
invariant `confidence ∈ [0,1] ∧ safetyScore ∈ [0,1]`. -/
theorem tanh_output_confidence_out_of_range :
    (∀ x ∈ ([-0.5, -0.5, -0.5, -0.5, -0.5] : List ℚ), -1 < x ∧ x < 1) ∧
    (postprocess_neural_output [-0.5, -0.5, -0.5, -0.5, -0.5]).confidence < 0 ∧
    (postprocess_neural_output [-0.5, -0.5, -0.5, -0.5, -0.5]).safety_score < 0 := by
  refine ⟨?_, ?_, ?_⟩
  · intro x hx
    fin_cases hx <;> norm_num
  · norm_num [postprocess_neural_output, listMax]
  · norm_num [postprocess_neural_output, calculate_safety_score]

/-- Amended claim C7: The invariant `confidence ∈ [0,1]` and
`safetyScore ∈ [0,1]` holds for every non-empty output vector whose
components lie in `[0,1]` — in particular for everything the stand-in
adapter (`np.random.random`, values in `[0,1)`) produces.  The
deterministic tanh variant can emit negative components and then
violates the invariant (see the counterexample). -/
theorem decision_bounds_for_unit_outputs (v : List ℚ) (hv : v ≠ [])
    (hunit : ∀ x ∈ v, 0 ≤ x ∧ x ≤ 1) :
    (0 ≤ (postprocess_neural_output v).confidence ∧
      (postprocess_neural_output v).confidence ≤ 1) ∧
    (0 ≤ (postprocess_neural_output v).safety_score ∧
      (postprocess_neural_output v).safety_score ≤ 1) := by
  constructor
  · exact hunit _ (listMax_mem hv)
  · show 0 ≤ calculate_safety_score v ∧ calculate_safety_score v ≤ 1
    unfold calculate_safety_score
    split
    · rw [List.getLast?_eq_getLast_of_ne_nil hv]
      exact hunit _ (List.getLast_mem hv)
    · norm_num

/-- Witness for the amended C7 on a stand-in-style output vector. -/
theorem decision_bounds_for_unit_outputs_witness :
    (0 ≤ (postprocess_neural_output [0.9, 0.1, 0.1, 0.1, 0.2]).confidence ∧
      (postprocess_neural_output [0.9, 0.1, 0.1, 0.1, 0.2]).confidence ≤ 1) ∧
    (0 ≤ (postprocess_neural_output [0.9, 0.1, 0.1, 0.1, 0.2]).safety_score ∧
      (postprocess_neural_output [0.9, 0.1, 0.1, 0.1, 0.2]).safety_score ≤ 1) := by
  refine decision_bounds_for_unit_outputs [0.9, 0.1, 0.1, 0.1, 0.2] (by simp) ?_
  intro x hx
  fin_cases hx <;> norm_num

/-- Claim C8: `SNNModel.process` adjusts its input to the configured
neuron count (zero-padding when short, truncating when long), applies
the fixed weight matrix row by row under the activation, always returns
exactly one output per weight row (`neuron_count` outputs for the square
matrix fixed at load time), and is deterministic: the result is a pure
function of the model parameters and the input. -/
theorem snn_process_spec (act : ℚ → ℚ) (weights : List (List ℚ))
    (neuron_count : ℕ) (sensor_data : List ℚ)
    (hsq : weights.length = neuron_count) :
    (adjust_input neuron_count sensor_data).length = neuron_count ∧
    (sensor_data.length ≤ neuron_count →
      adjust_input neuron_count sensor_data =
        sensor_data ++ List.replicate (neuron_count - sensor_data.length) 0) ∧
    (neuron_count ≤ sensor_data.length →
      adjust_input neuron_count sensor_data = sensor_data.take neuron_count) ∧
    (snn_process act weights neuron_count sensor_data).length = neuron_count ∧
    (∀ i : ℕ, (snn_process act weights neuron_count sensor_data)[i]? =
      (weights[i]?).map
        (fun row => act (dot row (adjust_input neuron_count sensor_data)))) ∧
    snn_process act weights neuron_count sensor_data =
      snn_process act weights neuron_count sensor_data := by
  refine ⟨?_, ?_, ?_, ?_, ?_, rfl⟩
  · unfold adjust_input
    split
    · next h =>
      simp only [List.length_append, List.length_replicate]
      omega
    · next h =>
      rw [List.length_take]
      omega
  · intro h
    unfold adjust_input
    split
    · rfl
    · next hge =>
      have : sensor_data.length = neuron_count := by omega
      rw [← this, List.take_length]
      simp [this]
  · intro h
    unfold adjust_input
    split
    · next hlt => omega
    · rfl
  · unfold snn_process
    rw [List.length_map]
    exact hsq
  · intro i
    unfold snn_process
    exact List.getElem?_map _ _ _

/-- Witness for C8 with the identity activation on a concrete 2×2
weight matrix and a short input that gets zero-padded. -/
theorem snn_process_spec_witness :
    (adjust_input 2 [0.3]).length = 2 ∧
    adjust_input 2 [0.3] = [0.3] ++ List.replicate (2 - 1) 0 ∧
    (snn_process id [[1, 0], [0, 1]] 2 [0.3]).length = 2 := by
  have h := snn_process_spec id [[1, 0], [0, 1]] 2 [0.3] rfl
  exact ⟨h.1, h.2.1 (by norm_num), h.2.2.2.1⟩

/-- Claim C9: `model_loaded` is `True` on every path out of
`initialize_neural_model` (both the success path and the exception
handler set it), so the status branch `"Neural Bridge: ERROR - Model not
loaded"` is unreachable, and a tick is dropped by the
`processing_callback` guard exactly when `processing` is set — never
because of `model_loaded`. -/
theorem model_loaded_always_true :
    (∀ load_raises : Bool, init_neural_model load_raises = true) ∧
    (∀ s : BridgeState, s.model_loaded = true →
      status_callback s ≠ "Neural Bridge: ERROR - Model not loaded") ∧
    (∀ s : BridgeState, s.model_loaded = true →
      (tick_dropped s = true ↔ s.processing = true)) := by
  refine ⟨?_, ?_, ?_⟩
  · intro b
    cases b <;> rfl
  · intro s hm
    unfold status_callback
    rw [hm, if_pos rfl]
    split
    · decide
    · decide
  · intro s hm
    simp [tick_dropped, hm]

/-- Witness for C9 at a concrete idle state with the model flag set. -/
theorem model_loaded_always_true_witness :
    init_neural_model true = true ∧
    status_callback ⟨true, false, none⟩ ≠ "Neural Bridge: ERROR - Model not loaded" ∧
    (tick_dropped ⟨true, false, none⟩ = true ↔
      (⟨true, false, none⟩ : BridgeState).processing = true) := by
  have h := model_loaded_always_true
  exact ⟨h.1 true, h.2.1 ⟨true, false, none⟩ rfl, h.2.2 ⟨true, false, none⟩ rfl⟩

/-- Claim C10: `ROSBridge.scan_callback` clamps every range at
`range_max` (values `≥ range_max` are replaced, values below
`range_min` pass through unfiltered — the list length is preserved),
feeds the clamped list to the SNN, and publishes exactly one `Twist`
with `linear.x = output[0] * 0.5` and `angular.z = output[1] * 0.5`;
the two accesses are in bounds iff the configured `neuron_count` is at
least 2. -/
theorem scan_callback_spec (act : ℚ → ℚ) (weights : List (List ℚ))
    (neuron_count : ℕ) (msg : LaserScan)
    (hsq : weights.length = neuron_count) :
    (clamp_ranges msg).length = msg.ranges.length ∧
    (∀ (i : ℕ) (r : ℚ), msg.ranges[i]? = some r →
      (msg.range_max ≤ r → (clamp_ranges msg)[i]? = some msg.range_max) ∧
      (r < msg.range_max → (clamp_ranges msg)[i]? = some r)) ∧
    ((scan_callback act weights neuron_count msg).isSome ↔ 2 ≤ neuron_count) ∧
    (∀ o0 o1,
      (snn_process act weights neuron_count (clamp_ranges msg))[0]? = some o0 →
      (snn_process act weights neuron_count (clamp_ranges msg))[1]? = some o1 →
      scan_callback act weights neuron_count msg =
        some ⟨o0 * 0.5, o1 * 0.5⟩) := by
  have hlen : (snn_process act weights neuron_count (clamp_ranges msg)).length =
      neuron_count := by
    unfold snn_process
    rw [List.length_map]
    exact hsq
  have heq : scan_callback act weights neuron_count msg =
      match (snn_process act weights neuron_count (clamp_ranges msg))[0]?,
            (snn_process act weights neuron_count (clamp_ranges msg))[1]? with
      | some o0, some o1 => some ⟨o0 * 0.5, o1 * 0.5⟩
      | _, _ => none := rfl
  refine ⟨List.length_map _ _, ?_, ?_, ?_⟩
  · intro i r hr
    constructor
    · intro hge
      unfold clamp_ranges
      rw [List.getElem?_map _ _ _, hr]
      simp only [Option.map_some']
      rw [if_neg (not_lt.mpr hge)]
    · intro hlt
      unfold clamp_ranges
      rw [List.getElem?_map _ _ _, hr]
      simp only [Option.map_some']
      rw [if_pos hlt]
  · constructor
    · intro hsome
      rw [heq] at hsome
      by_contra hnc
      push_neg at hnc
      have h1 : (snn_process act weights neuron_count (clamp_ranges msg))[1]? = none := by
        rw [List.getElem?_eq_none_iff]
        omega
      rw [h1] at hsome
      rcases h0 : (snn_process act weights neuron_count (clamp_ranges msg))[0]? with _ | o0 <;>
        rw [h0] at hsome <;> simp at hsome
    · intro hnc
      rw [heq, List.getElem?_eq_getElem (by omega), List.getElem?_eq_getElem (by omega)]
      rfl
  · intro o0 o1 h0 h1
    rw [heq, h0, h1]

/-- Witness for C10 on a one-beam scan with an out-of-range reading,
identity activation and the 2×2 identity weight matrix. -/
theorem scan_callback_spec_witness :
    (clamp_ranges ⟨[5, 0.2], 0.1, 1⟩).length = 2 ∧
    ((scan_callback id [[1, 0], [0, 1]] 2 ⟨[5, 0.2], 0.1, 1⟩).isSome ↔ 2 ≤ 2) ∧
    (clamp_ranges ⟨[5, 0.2], 0.1, 1⟩)[0]? = some 1 := by
  have h := scan_callback_spec id [[1, 0], [0, 1]] 2 ⟨[5, 0.2], 0.1, 1⟩ rfl
  refine ⟨h.1, h.2.2.1, ?_⟩
  have := (h.2.1 0 5 rfl).1 (by norm_num)
  simpa using this

end Eos
